import Mathlib

/-!
Shallow embedding of the NBA 2K17 MITM proxy (`src/nba2k17_mitm_proxy.js`).

The source holds two programs: a simple MITM proxy that redirects every
intercepted request to a local server (lines 1-200), and an enhanced
pass-through proxy that forwards intercepted requests to the real 2K
servers on port 17217 (lines 201-658).  The definitions below translate
the pure decision logic of both programs: domain classification, the
request/response modifier, the log sanitizers, the fail-fast/fallback
forwarding policy, and the CONNECT handlers, each collapsed to a pure
function from the request data and the outcome of every external I/O
action to a description of what is written to each socket.

JavaScript builtins used by the source (`JSON.parse`, `JSON.stringify`,
`String(v)` coercion, `parseInt`) are modelled on the fragment the
development needs: JSON values with integer numbers and strings without
`\u` escapes; fractional numbers are outside the model.
-/

set_option autoImplicit false

namespace Returno

/-- Node delivers request headers as a flat object of key/value pairs; we
model a header object as an ordered association list with unique keys. -/
abbrev Headers := List (String × String)

/-- Reading a header: the value at the first occurrence of the key. -/
def getHeader (hs : Headers) (k : String) : Option String :=
  (hs.find? (fun p => p.1 == k)).map Prod.snd

/-- JavaScript `\x7b ...headers, k: v \x7d` object spread followed by a key
assignment: an existing key keeps its position and gets the new value, a
fresh key is appended at the end. -/
def setHeader (hs : Headers) (k v : String) : Headers :=
  if hs.any (fun p => p.1 == k) then
    hs.map (fun p => if p.1 == k then (k, v) else p)
  else
    hs ++ [(k, v)]

theorem getHeader_map_override (hs : Headers) (k k2 v : String) (hne : k ≠ k2) :
    getHeader (hs.map (fun p => if p.1 == k2 then (k2, v) else p)) k = getHeader hs k := by
  induction hs with
  | nil => rfl
  | cons p t ih =>
    simp only [List.map_cons]
    by_cases hp : p.1 = k2
    · rw [if_pos (by simpa using hp)]
      unfold getHeader
      rw [List.find?_cons_of_neg _ (by simp only [beq_iff_eq]; exact fun hk => hne hk.symm),
        List.find?_cons_of_neg _ (by simp only [beq_iff_eq, hp]; exact fun hk => hne hk.symm)]
      exact ih
    · rw [if_neg (by simpa using hp)]
      unfold getHeader
      by_cases hk : p.1 = k
      · rw [List.find?_cons_of_pos _ (by simpa using hk),
          List.find?_cons_of_pos _ (by simpa using hk)]
      · rw [List.find?_cons_of_neg _ (by simpa using hk),
          List.find?_cons_of_neg _ (by simpa using hk)]
        exact ih

theorem getHeader_append_single_ne (hs : Headers) (k k2 v : String) (hne : k ≠ k2) :
    getHeader (hs ++ [(k2, v)]) k = getHeader hs k := by
  induction hs with
  | nil =>
    unfold getHeader
    rw [List.nil_append,
      List.find?_cons_of_neg _ (by simp only [beq_iff_eq]; exact fun hk => hne hk.symm)]
  | cons p t ih =>
    simp only [List.cons_append]
    unfold getHeader
    by_cases hk : p.1 = k
    · rw [List.find?_cons_of_pos _ (by simpa using hk),
        List.find?_cons_of_pos _ (by simpa using hk)]
    · rw [List.find?_cons_of_neg _ (by simpa using hk),
        List.find?_cons_of_neg _ (by simpa using hk)]
      exact ih

theorem getHeader_setHeader (hs : Headers) (k v : String) :
    getHeader (setHeader hs k v) k = some v := by
  unfold setHeader
  by_cases h : hs.any (fun p => p.1 == k)
  · rw [if_pos h]
    induction hs with
    | nil => simp at h
    | cons p t ih =>
      simp only [List.map_cons]
      by_cases hp : p.1 = k
      · rw [if_pos (by simpa using hp)]
        unfold getHeader
        rw [List.find?_cons_of_pos _ (by simp)]
        rfl
      · rw [if_neg (by simpa using hp)]
        simp only [List.any_cons, Bool.or_eq_true] at h
        unfold getHeader
        rw [List.find?_cons_of_neg _ (by simpa using hp)]
        have h2 : t.any (fun p => p.1 == k) = true := by
          rcases h with h1 | h2
          · exact absurd (by simpa using h1) hp
          · exact h2
        exact ih h2
  · rw [if_neg h]
    induction hs with
    | nil =>
      unfold getHeader
      rw [List.nil_append, List.find?_cons_of_pos _ (by simp)]
      rfl
    | cons p t ih =>
      simp only [List.any_cons, Bool.or_eq_true, not_or] at h
      simp only [List.cons_append]
      unfold getHeader
      rw [List.find?_cons_of_neg _ (by simpa using h.1)]
      have h2 : ¬t.any (fun p => p.1 == k) = true := by simpa using h.2
      exact ih h2

theorem getHeader_setHeader_ne (hs : Headers) (k k2 v : String) (hne : k ≠ k2) :
    getHeader (setHeader hs k2 v) k = getHeader hs k := by
  unfold setHeader
  by_cases h : hs.any (fun p => p.1 == k2)
  · rw [if_pos h]
    exact getHeader_map_override hs k k2 v hne
  · rw [if_neg h]
    exact getHeader_append_single_ne hs k k2 v hne

/-- JavaScript values as far as the proxy's body handling can observe them:
the JSON data values (with integer numbers; fractional numbers are outside
the model).  `undefined` never appears because `JSON.parse` cannot produce
it and the sanitizers only ever hold parse results or their inputs. -/
inductive JsValue where
  | null
  | bool (b : Bool)
  | num (n : Int)
  | str (s : String)
  | arr (elems : List JsValue)
  | obj (fields : List (String × JsValue))

/-- JavaScript truthiness: `null`, `false`, `0` and the empty string are
falsy; arrays and objects are always truthy. -/
def jsTruthy : JsValue → Bool
  | .null => false
  | .bool b => b
  | .num n => n != 0
  | .str s => s != ""
  | .arr _ => true
  | .obj _ => true

mutual

/-- JavaScript `String(v)` coercion on the modelled values. -/
def jsToString : JsValue → String
  | .null => "null"
  | .bool true => "true"
  | .bool false => "false"
  | .num n => toString n
  | .str s => s
  | .arr xs => jsArrayToString xs
  | .obj _ => "[object Object]"

/-- `Array.prototype.toString`: elements joined with commas, with null
elements rendered as the empty string. -/
def jsArrayToString : List JsValue → String
  | [] => ""
  | [.null] => ""
  | [x] => jsToString x
  | .null :: rest => "," ++ jsArrayToString rest
  | x :: rest => jsToString x ++ "," ++ jsArrayToString rest

end

def hexDigitChar (n : Nat) : String :=
  String.singleton (Char.ofNat (if n < 10 then 48 + n else 87 + n))

/-- Escaping performed by `JSON.stringify` inside string literals. -/
def jsonEscapeChar (c : Char) : String :=
  if c = '"' then "\\\""
  else if c = '\\' then "\\\\"
  else if c = '\n' then "\\n"
  else if c = '\r' then "\\r"
  else if c = '\t' then "\\t"
  else if c = '\x08' then "\\b"
  else if c = '\x0c' then "\\f"
  else if c.toNat < 32 then "\\u00" ++ hexDigitChar (c.toNat / 16) ++ hexDigitChar (c.toNat % 16)
  else String.singleton c

def jsonQuote (s : String) : String :=
  "\"" ++ String.join (s.data.map jsonEscapeChar) ++ "\""

mutual

/-- Modelled from the `JSON.stringify` builtin on the modelled value
fragment: no indentation argument, object fields kept in insertion
order, exactly as the source calls it. -/
def jsonStringify : JsValue → String
  | .null => "null"
  | .bool true => "true"
  | .bool false => "false"
  | .num n => toString n
  | .str s => jsonQuote s
  | .arr xs => "[" ++ jsonStringifyElems xs ++ "]"
  | .obj fs => "\x7b" ++ jsonStringifyFields fs ++ "\x7d"

def jsonStringifyElems : List JsValue → String
  | [] => ""
  | [x] => jsonStringify x
  | x :: rest => jsonStringify x ++ "," ++ jsonStringifyElems rest

def jsonStringifyFields : List (String × JsValue) → String
  | [] => ""
  | [(k, v)] => jsonQuote k ++ ":" ++ jsonStringify v
  | (k, v) :: rest => jsonQuote k ++ ":" ++ jsonStringify v ++ "," ++ jsonStringifyFields rest

end

def isJsonWs (c : Char) : Bool :=
  c == ' ' || c == '\t' || c == '\n' || c == '\r'

def skipWs (cs : List Char) : List Char := cs.dropWhile isJsonWs

/-- String-literal body scanner of the JSON grammar: consumes characters
up to the closing quote, decoding the single-character escapes; `\u`
escapes and raw control characters are outside the modelled fragment and
fail. -/
def parseStringBody (acc : List Char) : List Char → Option (String × List Char)
  | [] => none
  | c :: rest =>
    if c = '"' then some (String.mk acc.reverse, rest)
    else if c = '\\' then
      match rest with
      | [] => none
      | e :: rest2 =>
        if e = '"' then parseStringBody ('"' :: acc) rest2
        else if e = '\\' then parseStringBody ('\\' :: acc) rest2
        else if e = '/' then parseStringBody ('/' :: acc) rest2
        else if e = 'b' then parseStringBody ('\x08' :: acc) rest2
        else if e = 'f' then parseStringBody ('\x0c' :: acc) rest2
        else if e = 'n' then parseStringBody ('\n' :: acc) rest2
        else if e = 'r' then parseStringBody ('\r' :: acc) rest2
        else if e = 't' then parseStringBody ('\t' :: acc) rest2
        else none
    else if c.toNat < 32 then none
    else parseStringBody (c :: acc) rest

def digitsToNat (ds : List Char) : Nat :=
  ds.foldl (fun a c => a * 10 + (c.toNat - 48)) 0

/-- Number token of the JSON grammar, integer fragment: optional minus,
digits without a leading zero; a following `.`, `e` or `E` (a fractional
or exponent part) is outside the modelled fragment and fails. -/
def parseNumberChars (cs : List Char) : Option (Int × List Char) :=
  let neg : Bool := match cs with
    | '-' :: _ => true
    | _ => false
  let cs1 := if neg then cs.tail else cs
  let ds := cs1.takeWhile Char.isDigit
  let rest := cs1.dropWhile Char.isDigit
  if ds = [] then none
  else if 1 < ds.length ∧ ds.headD '0' = '0' then none
  else match rest with
    | '.' :: _ => none
    | 'e' :: _ => none
    | 'E' :: _ => none
    | _ => some (if neg then -(digitsToNat ds : Int) else (digitsToNat ds : Int), rest)

mutual

/-- Recursive descent over the JSON grammar; the fuel argument strictly
decreases on every call and `jsonParse` supplies more fuel than any parse
of the input can consume. -/
def parseValue : Nat → List Char → Option (JsValue × List Char)
  | 0, _ => none
  | fuel + 1, cs =>
    match skipWs cs with
    | 'n' :: 'u' :: 'l' :: 'l' :: rest => some (.null, rest)
    | 't' :: 'r' :: 'u' :: 'e' :: rest => some (.bool true, rest)
    | 'f' :: 'a' :: 'l' :: 's' :: 'e' :: rest => some (.bool false, rest)
    | '"' :: rest =>
      match parseStringBody [] rest with
      | some (s, rest2) => some (.str s, rest2)
      | none => none
    | '[' :: rest =>
      match skipWs rest with
      | ']' :: rest2 => some (.arr [], rest2)
      | rest2 => parseElements fuel rest2 []
    | '\x7b' :: rest =>
      match skipWs rest with
      | '\x7d' :: rest2 => some (.obj [], rest2)
      | rest2 => parseMembers fuel rest2 []
    | c :: rest =>
      if c = '-' ∨ c.isDigit then
        match parseNumberChars (c :: rest) with
        | some (n, rest2) => some (.num n, rest2)
        | none => none
      else none
    | [] => none

def parseElements : Nat → List Char → List JsValue → Option (JsValue × List Char)
  | 0, _, _ => none
  | fuel + 1, cs, acc =>
    match parseValue fuel cs with
    | none => none
    | some (v, rest) =>
      match skipWs rest with
      | ',' :: rest2 => parseElements fuel rest2 (v :: acc)
      | ']' :: rest2 => some (.arr (v :: acc).reverse, rest2)
      | _ => none

def parseMembers : Nat → List Char → List (String × JsValue) → Option (JsValue × List Char)
  | 0, _, _ => none
  | fuel + 1, cs, acc =>
    match skipWs cs with
    | '"' :: rest =>
      match parseStringBody [] rest with
      | none => none
      | some (k, rest2) =>
        match skipWs rest2 with
        | ':' :: rest3 =>
          match parseValue fuel rest3 with
          | none => none
          | some (v, rest4) =>
            match skipWs rest4 with
            | ',' :: rest5 => parseMembers fuel rest5 ((k, v) :: acc)
            | '\x7d' :: rest5 => some (.obj ((k, v) :: acc).reverse, rest5)
            | _ => none
        | _ => none
    | _ => none

end

/-- Modelled from the `JSON.parse` builtin on the modelled fragment:
parses one value surrounded by optional whitespace and rejects trailing
input, as the builtin does. -/
def jsonParse (s : String) : Option JsValue :=
  match parseValue (2 * s.length + 2) s.data with
  | some (v, rest) => if skipWs rest = [] then some v else none
  | none => none

def listIncludes (needle : List Char) : List Char → Bool
  | [] => needle.isEmpty
  | c :: rest => needle.isPrefixOf (c :: rest) || listIncludes needle rest

/-- JavaScript `haystack.includes(needle)` substring containment. -/
def jsIncludes (haystack needle : String) : Bool :=
  listIncludes needle.data haystack.data

/-- `INTERCEPT_DOMAINS` of the simple MITM proxy (source lines 15-21). -/
def mitmInterceptDomains : List String :=
  ["nba2k17-ws.2ksports.com", "nba2k17-services.2ksports.com", "api.2ksports.com",
    "services.2ksports.com", "2ksports.com"]

/-- `INTERCEPT_DOMAINS` of the enhanced pass-through proxy (source lines
225-230). -/
def interceptDomains : List String :=
  ["nba2k17-ws.2ksports.com", "nba2k17-services.2ksports.com", "api.2ksports.com",
    "services.2ksports.com"]

/-- `INTERCEPT_DOMAINS.some(domain => hostname.includes(domain))`, the
classification test both programs apply. -/
def matchesAnyRule (domains : List String) (hostname : String) : Bool :=
  domains.any (fun d => jsIncludes hostname d)

/-- First rule of the list the hostname matches, in registration order. -/
def firstMatchingDomain (domains : List String) (hostname : String) : Option String :=
  domains.find? (fun d => jsIncludes hostname d)

structure Endpoint where
  host : String
  port : Nat
  protocol : String
deriving DecidableEq

/-- `SERVER_ENDPOINTS` (source lines 234-239): object literal keyed by
the exact hostname. -/
def serverEndpoints : List (String × Endpoint) :=
  [("nba2k17-ws.2ksports.com", ⟨"nba2k17-ws.2ksports.com", 17217, "https"⟩),
    ("nba2k17-services.2ksports.com", ⟨"nba2k17-services.2ksports.com", 17217, "https"⟩),
    ("api.2ksports.com", ⟨"api.2ksports.com", 17217, "https"⟩),
    ("services.2ksports.com", ⟨"services.2ksports.com", 17217, "https"⟩)]

/-- `SERVER_ENDPOINTS[hostname]`: property lookup on the object literal. -/
def lookupEndpoint (hostname : String) : Option Endpoint :=
  (serverEndpoints.find? (fun p => p.1 == hostname)).map Prod.snd

inductive Decision where
  | intercept (target : Endpoint)
  | passthrough
  | errorResponse (status : Nat) (body : String)
deriving DecidableEq

/-- Classification step of `handleProxyRequest` (source lines 384-394):
substring match against the rule list selects the intercept path, then an
exact endpoint lookup resolves the target; a matching hostname without an
endpoint entry is answered with a synthesized 502 instead of a forward
decision. -/
def classifyEnhanced (hostname : String) : Decision :=
  if matchesAnyRule interceptDomains hostname then
    match lookupEndpoint hostname with
    | some e => .intercept e
    | none => .errorResponse 502 "Bad Gateway: Unknown 2K server"
  else .passthrough

/-- `ProxyLogger.sanitizeHeaders` (source lines 282-289): copy the header
object and delete the three credential-bearing keys. -/
def sanitizeHeaders (headers : Headers) : Headers :=
  headers.filter (fun p =>
    !(p.1 == "authorization" || p.1 == "cookie" || p.1 == "x-session-token"))

/-- The three `delete parsed.*` statements of `sanitizeBody`: key removal
on objects, a silent no-op on every other value except `null`, where
property deletion throws a `TypeError` (modelled as `none`). -/
def deleteSensitiveFields : JsValue → Option JsValue
  | .null => none
  | .obj fs => some (.obj (fs.filter (fun p =>
      !(p.1 == "password" || p.1 == "token" || p.1 == "sessionToken"))))
  | v => some v

/-- JavaScript `v.length`: defined for strings and arrays, `undefined`
otherwise. -/
def jsLength : JsValue → Option Nat
  | .str s => some s.length
  | .arr xs => some xs.length
  | _ => none

/-- `body.substring(0, n)` on a string value. -/
def jsSubstring0 (s : String) (n : Nat) : String := String.mk (s.data.take n)

/-- Catch branch of `sanitizeBody` (source line 302): truncate bodies
longer than 200; a `length` of `undefined` compares false against 200 and
the body is returned as-is; `.substring` on a non-string with a numeric
`length` over 200 would itself throw (`none`). -/
def sanitizeBodyCatch (body : JsValue) : Option JsValue :=
  match jsLength body with
  | some len =>
    if 200 < len then
      match body with
      | .str s => some (.str (jsSubstring0 s 200 ++ "..."))
      | _ => none
    else some body
  | none => some body

/-- `ProxyLogger.sanitizeBody` (source lines 291-304).  A falsy body is
answered with `null`; otherwise the body is coerced to a string and
`JSON.parse`d: on success the credential fields are deleted and the
parsed value is returned, and a parse failure or a throwing delete lands
in the catch branch.  `none` marks an uncaught throw, possible only for
inputs the program itself never passes. -/
def sanitizeBody (body : JsValue) : Option JsValue :=
  if !jsTruthy body then some .null
  else
    match jsonParse (jsToString body) with
    | some parsed =>
      match deleteSensitiveFields parsed with
      | some cleaned => some cleaned
      | none => sanitizeBodyCatch body
    | none => sanitizeBodyCatch body

structure RequestOut where
  path : String
  headers : Headers
  body : String
deriving DecidableEq

structure HttpMessageOut where
  statusCode : Nat
  headers : Headers
  body : String
deriving DecidableEq

/-- `RequestModifier.modifyRequest` (source lines 316-337): with
modifications disabled the triple passes through untouched; enabled, the
correlation id and a timestamp (passed in here as `ts`, the value of
`new Date().toISOString()`) are set on a copy of the headers.  The
`/user/login` branch only logs. -/
def modifyRequest (enableMods : Bool) (requestId ts path : String) (headers : Headers)
    (body : String) : RequestOut :=
  if !enableMods then ⟨path, headers, body⟩
  else
    ⟨path, setHeader (setHeader headers "X-Proxy-Request-ID" requestId) "X-Proxy-Timestamp" ts,
      body⟩

/-- `RequestModifier.modifyResponse` (source lines 340-372): with
modifications disabled the triple passes through untouched; enabled, the
correlation id is set on a copy of the headers and the body is
`JSON.parse`d: a non-null parse is re-serialized (the VC branch only
logs), while a parse failure, or the `TypeError` that `bodyData.vc`
raises on a null parse, lands in the catch branch and keeps the body
as-is. -/
def modifyResponse (enableMods : Bool) (requestId : String) (statusCode : Nat)
    (headers : Headers) (body : String) : HttpMessageOut :=
  if !enableMods then ⟨statusCode, headers, body⟩
  else
    let modifiedHeaders := setHeader headers "X-Proxy-Response-ID" requestId
    match jsonParse body with
    | some .null => ⟨statusCode, modifiedHeaders, body⟩
    | some v => ⟨statusCode, modifiedHeaders, jsonStringify v⟩
    | none => ⟨statusCode, modifiedHeaders, body⟩

structure Config where
  fallbackToLocal : Bool
  enableModifications : Bool

/-- The `CONFIG` flags of the shipped source (lines 218-219). -/
def defaultConfig : Config := ⟨false, true⟩

/-- One HTTP request the proxy issues upstream: the options object passed
to `http.request`/`https.request` plus the body written to the request. -/
structure UpstreamCall where
  hostname : String
  port : Nat
  path : String
  method : String
  headers : Headers
  body : String
deriving DecidableEq

/-- Outcome of the call to the real 2K server, as the event handlers of
`forwardToRealServer` can observe it. -/
inductive UpstreamResult where
  | success (status : Nat) (headers : Headers) (body : String)
  | connError (msg : String)
  | timeout

/-- Outcome of the call to the local fallback server; that request sets
no timeout, so only success and the error event occur. -/
inductive LocalResult where
  | success (status : Nat) (headers : Headers) (body : String)
  | connError (msg : String)

/-- Everything a forward writes: the upstream requests actually issued,
in order, and the response synthesized for the client. -/
structure ForwardTrace where
  attempts : List UpstreamCall
  clientStatus : Nat
  clientHeaders : Headers
  clientBody : String
deriving DecidableEq

def localServerHost : String := "127.0.0.1"
def localServerPort : Nat := 49767

/-- `forwardToLocalServer` (source lines 497-527), collapsed over the
outcome of its single upstream call: a success pipes the response
through, an error synthesizes a 502 with the error message; there is no
further attempt in either case. -/
def forwardToLocalServer (method path : String) (headers : Headers) (body : String)
    (res : LocalResult) : ForwardTrace :=
  let call : UpstreamCall :=
    ⟨localServerHost, localServerPort, path, method,
      setHeader headers "host" (localServerHost ++ ":" ++ toString localServerPort), body⟩
  match res with
  | .success st hs b => ⟨[call], st, hs, b⟩
  | .connError msg =>
    ⟨[call], 502, [("Content-Type", "text/plain")], "Local Server Error: " ++ msg⟩

/-- `forwardToRealServer` (source lines 428-494), collapsed over the
outcome of the upstream call: the options rewrite the Host header to the
target's own `host:port`; a success buffers the response body and runs
the response modifier before answering the client; a connection error
consults `FALLBACK_TO_LOCAL` and either re-issues the request against
the local server or synthesizes a 502; a timeout destroys the request
and synthesizes a 504 regardless of the fallback flag. -/
def forwardToRealServer (cfg : Config) (requestId : String) (target : Endpoint)
    (path method : String) (headers : Headers) (body : String)
    (primary : UpstreamResult) (secondary : LocalResult) : ForwardTrace :=
  let call : UpstreamCall :=
    ⟨target.host, target.port, path, method,
      setHeader headers "host" (target.host ++ ":" ++ toString target.port), body⟩
  match primary with
  | .success st hs b =>
    let m := modifyResponse cfg.enableModifications requestId st hs b
    ⟨[call], m.statusCode, m.headers, m.body⟩
  | .connError msg =>
    if cfg.fallbackToLocal then
      let t := forwardToLocalServer method path headers body secondary
      ⟨call :: t.attempts, t.clientStatus, t.clientHeaders, t.clientBody⟩
    else
      ⟨[call], 502, [("Content-Type", "text/plain")], "Bad Gateway: " ++ msg⟩
  | .timeout =>
    ⟨[call], 504, [("Content-Type", "text/plain")], "Gateway Timeout"⟩

/-- Intercepted-request path of `handleProxyRequest` (source lines
396-413) once the request body has been buffered: run the request
modifier, then forward to the resolved real-server endpoint. -/
def handleInterceptRequest (cfg : Config) (requestId ts method : String) (target : Endpoint)
    (path : String) (headers : Headers) (body : String)
    (primary : UpstreamResult) (secondary : LocalResult) : ForwardTrace :=
  let m := modifyRequest cfg.enableModifications requestId ts path headers body
  forwardToRealServer cfg requestId target m.path method m.headers m.body primary secondary

/-- `forwardNormalRequest` (source lines 530-557), the PASSTHROUGH
forward, collapsed over the outcome of its single upstream call: the
client headers are passed through unchanged (no Host rewrite, no
modifier), the request sets no timeout so only success and the error
event can occur, and an upstream error is answered with a bare 500 and
the fixed body `Forward Error`, with no further attempt. -/
def forwardNormalRequest (hostname : String) (port : Nat) (path method : String)
    (headers : Headers) (body : String) (res : LocalResult) : ForwardTrace :=
  let call : UpstreamCall := ⟨hostname, port, path, method, headers, body⟩
  match res with
  | .success st hs b => ⟨[call], st, hs, b⟩
  | .connError _ => ⟨[call], 500, [], "Forward Error"⟩

/-- `url.split(':')` on the character list. -/
def splitColon : List Char → List (List Char)
  | [] => [[]]
  | ':' :: rest => [] :: splitColon rest
  | c :: rest =>
    match splitColon rest with
    | g :: gs => (c :: g) :: gs
    | [] => [[c]]

/-- `req.url.split(':')[0]` of both CONNECT handlers. -/
def connectHostname (url : String) : String :=
  String.mk ((splitColon url.data).headD [])

/-- JavaScript `parseInt` on the split parts: a leading run of digits, or
`NaN` (none) when there is none. -/
def jsParseInt (s : List Char) : Option Nat :=
  let ds := s.takeWhile Char.isDigit
  if ds = [] then none else some (digitsToNat ds)

/-- `parseInt(req.url.split(':')[1]) || 443`: a missing part parses to
`NaN` and a parsed `0` is falsy, both falling back to 443. -/
def connectPort (url : String) : Nat :=
  match (splitColon url.data).get? 1 with
  | none => 443
  | some p =>
    match jsParseInt p with
    | none => 443
    | some 0 => 443
    | some n => n

/-- Everything a CONNECT handler writes: the raw strings written to the
client socket, whether the client socket is ended, whether a TLS server
is attached to the client socket (the decrypt-and-redirect strategy),
the upstream target when a tunnel connection is attempted, the byte
chunks written into the upstream socket before bidirectional piping
begins, and whether bidirectional piping is established. -/
structure ConnectResult where
  clientWrites : List String
  clientClosed : Bool
  tlsTerminated : Bool
  upstreamTarget : Option (String × Nat)
  upstreamPrelude : List (List Nat)
  tunneled : Bool
deriving DecidableEq

def connectionEstablishedLine : String := "HTTP/1.1 200 Connection Established\r\n\r\n"

/-- CONNECT handler of the simple MITM proxy (source lines 105-174),
collapsed over certificate availability and the outcome of the upstream
`net.connect`.  `head` is the byte chunk that arrived together with the
CONNECT request head.  An intercepted hostname with certificates loaded
gets the inbound TLS session terminated by the local `https` server; one
without certificates gets a synthesized 500 status line and the socket is
ended, with no upstream connection attempted.  Passthrough hostnames get
an opaque tunnel with `head` written first; a failed passthrough connect
ends the client socket without writing a status line. -/
def mitmHandleConnect (url : String) (head : List Nat) (sslLoaded connectOk : Bool) :
    ConnectResult :=
  let hostname := connectHostname url
  let port := connectPort url
  if matchesAnyRule mitmInterceptDomains hostname then
    if sslLoaded then
      ⟨[connectionEstablishedLine], false, true, none, [], false⟩
    else
      ⟨["HTTP/1.1 500 SSL Interception Not Available\r\n\r\n"], true, false, none, [], false⟩
  else
    if connectOk then
      ⟨[connectionEstablishedLine], false, false, some (hostname, port), [head], true⟩
    else
      ⟨[], true, false, some (hostname, port), [], false⟩

/-- `handleConnect` of the enhanced pass-through proxy (source lines
560-608), collapsed over the outcome of the upstream `net.connect`.  The
intercepted branch re-tunnels to the same hostname on the fixed real
port 17217 and starts piping without ever writing `head` into the server
socket; the passthrough branch writes `head` before piping.  A failed
intercept connect writes a 502 status line and ends the client socket; a
failed passthrough connect only ends it. -/
def handleConnect (url : String) (head : List Nat) (connectOk : Bool) : ConnectResult :=
  let hostname := connectHostname url
  let targetPort := connectPort url
  if matchesAnyRule interceptDomains hostname then
    let realPort := 17217
    if connectOk then
      ⟨[connectionEstablishedLine], false, false, some (hostname, realPort), [], true⟩
    else
      ⟨["HTTP/1.1 502 Bad Gateway\r\n\r\n"], true, false, some (hostname, realPort), [], false⟩
  else
    if connectOk then
      ⟨[connectionEstablishedLine], false, false, some (hostname, targetPort), [head], true⟩
    else
      ⟨[], true, false, some (hostname, targetPort), [], false⟩

theorem modifyResponse_headers_enabled (requestId : String) (st : Nat) (hs : Headers)
    (body : String) :
    (modifyResponse true requestId st hs body).headers =
      setHeader hs "X-Proxy-Response-ID" requestId := by
  cases hj : jsonParse body with
  | none => simp [modifyResponse, hj]
  | some v => cases v <;> simp [modifyResponse, hj]

theorem modifyResponse_body_parse_some (requestId : String) (st : Nat) (hs : Headers)
    (body : String) (v : JsValue) (hj : jsonParse body = some v) (hv : v ≠ JsValue.null) :
    (modifyResponse true requestId st hs body).body = jsonStringify v := by
  cases v with
  | null => exact absurd rfl hv
  | bool b => simp [modifyResponse, hj]
  | num n => simp [modifyResponse, hj]
  | str s => simp [modifyResponse, hj]
  | arr xs => simp [modifyResponse, hj]
  | obj fs => simp [modifyResponse, hj]

theorem modifyResponse_body_parse_none (requestId : String) (st : Nat) (hs : Headers)
    (body : String) (hj : jsonParse body = none) :
    (modifyResponse true requestId st hs body).body = body := by
  simp [modifyResponse, hj]

theorem getHeader_tagged_request (headers : Headers) (requestId ts v : String) :
    getHeader (setHeader (setHeader (setHeader headers "X-Proxy-Request-ID" requestId)
        "X-Proxy-Timestamp" ts) "host" v) "X-Proxy-Request-ID" = some requestId := by
  rw [getHeader_setHeader_ne _ _ _ _ (by decide), getHeader_setHeader_ne _ _ _ _ (by decide),
    getHeader_setHeader]

/-- C1: refuted as stated.  The hostname `evil-api.2ksports.com` contains
the rule string `api.2ksports.com`, so it matches an InterceptRule, yet
classification answers a synthesized 502 error response instead of an
INTERCEPT decision, because the exact `SERVER_ENDPOINTS` lookup finds no
entry: classification does have an error path. -/
theorem classify_matching_hostname_error_counterexample :
    matchesAnyRule interceptDomains "evil-api.2ksports.com" = true ∧
      classifyEnhanced "evil-api.2ksports.com" =
        Decision.errorResponse 502 "Bad Gateway: Unknown 2K server" :=
  ⟨rfl, rfl⟩

/-- C1 (amended): for every hostname matching an InterceptRule,
classification returns INTERCEPT with the target of the exact
`SERVER_ENDPOINTS` entry for that hostname when such an entry exists —
and for every registered hostname that entry coincides with the
first-registered matching rule (target host equal to the rule's own
domain, port 17217) — while a matching hostname without an endpoint
entry is answered with a synthesized 502 error response instead of a
forward decision. -/
theorem classify_intercept_first_match (h : String)
    (hm : matchesAnyRule interceptDomains h = true) :
    (∀ e, lookupEndpoint h = some e → classifyEnhanced h = Decision.intercept e) ∧
      (lookupEndpoint h = none →
        classifyEnhanced h = Decision.errorResponse 502 "Bad Gateway: Unknown 2K server") ∧
      (∀ p ∈ serverEndpoints,
        firstMatchingDomain interceptDomains p.1 = some p.1 ∧ p.2.host = p.1 ∧
          p.2.port = 17217) := by
  refine ⟨?_, ?_, by decide⟩
  · intro e he
    simp [classifyEnhanced, hm, he]
  · intro he
    simp [classifyEnhanced, hm, he]

/-- C1 witness: the registered hostname `api.2ksports.com` matches and is
classified INTERCEPT with its registered endpoint. -/
theorem classify_intercept_first_match_witness :
    classifyEnhanced "api.2ksports.com" =
      Decision.intercept ⟨"api.2ksports.com", 17217, "https"⟩ :=
  (classify_intercept_first_match "api.2ksports.com" rfl).1
    ⟨"api.2ksports.com", 17217, "https"⟩ rfl

/-- C2: confirmed.  A CONNECT whose hostname matches the intercept list
of the TLS-terminating proxy, arriving when no certificate/key pair was
loaded (`sslLoaded = false`), is answered with the synthesized 500
status line, the client socket is ended, no TLS termination happens, no
upstream connection is attempted and no bytes are relayed, whatever the
head bytes or the would-be connect outcome. -/
theorem connect_no_cert_refused (url : String) (head : List Nat) (connectOk : Bool)
    (hm : matchesAnyRule mitmInterceptDomains (connectHostname url) = true) :
    mitmHandleConnect url head false connectOk =
      ⟨["HTTP/1.1 500 SSL Interception Not Available\r\n\r\n"], true, false, none, [], false⟩ := by
  simp [mitmHandleConnect, hm]

/-- C2 witness at a concrete intercepted CONNECT. -/
theorem connect_no_cert_refused_witness :
    mitmHandleConnect "nba2k17-ws.2ksports.com:443" [22, 3, 1] false true =
      ⟨["HTTP/1.1 500 SSL Interception Not Available\r\n\r\n"], true, false, none, [], false⟩ :=
  connect_no_cert_refused "nba2k17-ws.2ksports.com:443" [22, 3, 1] true rfl

/-- C3: refuted as stated.  With fallback enabled, an upstream timeout
issues no request to the secondary target at all — the timeout handler
synthesizes the 504 directly, bypassing the fallback policy — whereas
the claim promises exactly one secondary request for every failing
INTERCEPT forward. -/
theorem fallback_timeout_counterexample :
    (forwardToRealServer ⟨true, true⟩ "REQ-1-0" ⟨"nba2k17-ws.2ksports.com", 17217, "https"⟩
        "/x" "GET" [] "" UpstreamResult.timeout (LocalResult.connError "ECONNREFUSED")).attempts =
      [⟨"nba2k17-ws.2ksports.com", 17217, "/x", "GET",
        [("host", "nba2k17-ws.2ksports.com:17217")], ""⟩] ∧
      (forwardToRealServer ⟨true, true⟩ "REQ-1-0" ⟨"nba2k17-ws.2ksports.com", 17217, "https"⟩
        "/x" "GET" [] "" UpstreamResult.timeout (LocalResult.connError "ECONNREFUSED")).clientStatus =
      504 :=
  ⟨rfl, rfl⟩

/-- C3 (amended): for an upstream connection error, fallback disabled
issues no secondary request and fail-fasts with the 502; fallback
enabled issues exactly one request to the secondary local target,
whatever its outcome, and a secondary failure fail-fasts with a 502 and
no third attempt.  An upstream timeout always fail-fasts with a 504 and
never reaches the secondary, even with fallback enabled. -/
theorem fallback_policy_amended (requestId : String) (target : Endpoint)
    (path method : String) (headers : Headers) (body : String) (msg msg2 : String)
    (fb em : Bool) (sec : LocalResult) :
    (forwardToRealServer ⟨false, em⟩ requestId target path method headers body
        (.connError msg) sec =
      ⟨[⟨target.host, target.port, path, method,
          setHeader headers "host" (target.host ++ ":" ++ toString target.port), body⟩],
        502, [("Content-Type", "text/plain")], "Bad Gateway: " ++ msg⟩) ∧
      ((forwardToRealServer ⟨true, em⟩ requestId target path method headers body
          (.connError msg) sec).attempts =
        [⟨target.host, target.port, path, method,
            setHeader headers "host" (target.host ++ ":" ++ toString target.port), body⟩,
          ⟨localServerHost, localServerPort, path, method,
            setHeader headers "host" (localServerHost ++ ":" ++ toString localServerPort),
            body⟩]) ∧
      (forwardToRealServer ⟨true, em⟩ requestId target path method headers body
          (.connError msg) (.connError msg2) =
        ⟨[⟨target.host, target.port, path, method,
            setHeader headers "host" (target.host ++ ":" ++ toString target.port), body⟩,
          ⟨localServerHost, localServerPort, path, method,
            setHeader headers "host" (localServerHost ++ ":" ++ toString localServerPort),
            body⟩],
          502, [("Content-Type", "text/plain")], "Local Server Error: " ++ msg2⟩) ∧
      (forwardToRealServer ⟨fb, em⟩ requestId target path method headers body
          .timeout sec =
        ⟨[⟨target.host, target.port, path, method,
            setHeader headers "host" (target.host ++ ":" ++ toString target.port), body⟩],
          504, [("Content-Type", "text/plain")], "Gateway Timeout"⟩) := by
  refine ⟨rfl, ?_, rfl, rfl⟩
  cases sec <;> rfl

/-- C4: refuted as stated.  The claim ranges over every upstream call,
but the passthrough forward answers a connection/DNS failure with a bare
500 whose fixed body `Forward Error` names no error — not the promised
502 with a body naming the error — and, setting no timeout, it has no
504 path at all. -/
theorem passthrough_failure_status_counterexample :
    forwardNormalRequest "example.com" 80 "/x" "GET" [] ""
        (LocalResult.connError "ECONNREFUSED") =
      ⟨[⟨"example.com", 80, "/x", "GET", [], ""⟩], 500, [], "Forward Error"⟩ :=
  rfl

/-- C4 (amended): for every INTERCEPT upstream call failing with
fallback disabled, the synthesized response reflects the error kind — a
timeout yields a 504 with plain-text body `Gateway Timeout`, a
connection failure yields a 502 with a plain-text body naming the error
message — and exactly one upstream request was issued, no retry.  The
PASSTHROUGH forward instead answers a connection failure with a bare
500 and the fixed body `Forward Error` (naming no error), also with no
retry, and has no timeout path. -/
theorem fail_fast_statuses (requestId : String) (target : Endpoint) (path method : String)
    (headers : Headers) (body : String) (msg : String) (em : Bool) (sec : LocalResult)
    (hostname : String) (port : Nat) :
    (forwardToRealServer ⟨false, em⟩ requestId target path method headers body
        .timeout sec =
      ⟨[⟨target.host, target.port, path, method,
          setHeader headers "host" (target.host ++ ":" ++ toString target.port), body⟩],
        504, [("Content-Type", "text/plain")], "Gateway Timeout"⟩) ∧
      (forwardToRealServer ⟨false, em⟩ requestId target path method headers body
          (.connError msg) sec =
        ⟨[⟨target.host, target.port, path, method,
            setHeader headers "host" (target.host ++ ":" ++ toString target.port), body⟩],
          502, [("Content-Type", "text/plain")], "Bad Gateway: " ++ msg⟩) ∧
      (forwardNormalRequest hostname port path method headers body (.connError msg) =
        ⟨[⟨hostname, port, path, method, headers, body⟩], 500, [], "Forward Error"⟩) :=
  ⟨rfl, rfl, rfl⟩

/-- C5: confirmed.  For every INTERCEPT forward, whatever the
configuration, the modifier outcome, the upstream outcome and the
client-supplied headers (in particular any client-supplied Host header),
the first upstream request carries a Host header equal to the target's
own `host:port`. -/
theorem host_header_rewrite (cfg : Config) (requestId ts method : String) (target : Endpoint)
    (path : String) (headers : Headers) (body : String) (primary : UpstreamResult)
    (secondary : LocalResult) :
    ((handleInterceptRequest cfg requestId ts method target path headers body primary
        secondary).attempts.head?).map (fun c => getHeader c.headers "host") =
      some (some (target.host ++ ":" ++ toString target.port)) := by
  cases primary with
  | success st hs b =>
    simp [handleInterceptRequest, forwardToRealServer, getHeader_setHeader]
  | connError msg =>
    by_cases hf : cfg.fallbackToLocal
    · simp [handleInterceptRequest, forwardToRealServer, hf, getHeader_setHeader]
    · simp [handleInterceptRequest, forwardToRealServer, hf, getHeader_setHeader]
  | timeout =>
    simp [handleInterceptRequest, forwardToRealServer, getHeader_setHeader]

/-- C6: code bug.  On the intercept re-tunnel path the handler never
writes the CONNECT head bytes into the server socket before piping (the
prelude is empty even though head bytes arrived), so the client's
original bytes are not all relayed; the passthrough branch of the very
same handler does write the head first, showing the intended behavior. -/
theorem retunnel_drops_head :
    handleConnect "nba2k17-ws.2ksports.com:443" [22, 3, 1] true =
      ⟨[connectionEstablishedLine], false, false,
        some ("nba2k17-ws.2ksports.com", 17217), [], true⟩ ∧
      handleConnect "example.com:443" [22, 3, 1] true =
        ⟨[connectionEstablishedLine], false, false, some ("example.com", 443),
          [[22, 3, 1]], true⟩ :=
  ⟨rfl, rfl⟩

/-- C7: refuted as stated.  With modifications disabled the modifier
hooks return the request and response untouched: neither the outgoing
request headers nor the response headers carry the correlation id. -/
theorem tagging_disabled_counterexample :
    getHeader (modifyRequest false "REQ-1-0" "TS" "/a" [] "").headers
        "X-Proxy-Request-ID" = none ∧
      getHeader (modifyResponse false "REQ-1-0" 200 [] "").headers
        "X-Proxy-Response-ID" = none :=
  ⟨rfl, rfl⟩

/-- C7 (amended): with modifications enabled (the shipped configuration)
every buffered INTERCEPT forward tags the outgoing upstream request
headers with the correlation id, whatever the upstream outcome, and a
successful forward tags the response headers written to the client with
the correlation id — independently of whether the body mutation applies
(the claim's independence holds of the mutation, not of the
`ENABLE_MODIFICATIONS` flag). -/
theorem tagging_enabled_amended (fb : Bool) (requestId ts method : String) (target : Endpoint)
    (path : String) (headers : Headers) (body : String) (st : Nat) (hs : Headers)
    (b : String) (sec : LocalResult) (primary : UpstreamResult) :
    (((handleInterceptRequest ⟨fb, true⟩ requestId ts method target path headers body primary
          sec).attempts.head?).map (fun c => getHeader c.headers "X-Proxy-Request-ID") =
        some (some requestId)) ∧
      getHeader ((handleInterceptRequest ⟨fb, true⟩ requestId ts method target path headers
          body (.success st hs b) sec).clientHeaders) "X-Proxy-Response-ID" = some requestId := by
  constructor
  · cases primary with
    | success st2 hs2 b2 =>
      simp [handleInterceptRequest, forwardToRealServer, modifyRequest, getHeader_tagged_request]
    | connError msg =>
      by_cases hf : fb
      · simp [handleInterceptRequest, forwardToRealServer, modifyRequest, hf,
          getHeader_tagged_request]
      · simp [handleInterceptRequest, forwardToRealServer, modifyRequest, hf,
          getHeader_tagged_request]
    | timeout =>
      simp [handleInterceptRequest, forwardToRealServer, modifyRequest, getHeader_tagged_request]
  · have hcl : (handleInterceptRequest ⟨fb, true⟩ requestId ts method target path headers
        body (.success st hs b) sec).clientHeaders = (modifyResponse true requestId st hs b).headers :=
      rfl
    rw [hcl, modifyResponse_headers_enabled, getHeader_setHeader]

/-- C8: refuted as stated.  A failed CONNECT establishment on the
passthrough path writes no status line at all: the handler only ends the
client socket, whereas the claim promises a 502/500-class status line on
every establishment failure. -/
theorem connect_passthrough_failure_counterexample :
    handleConnect "example.com:443" [22, 3, 1] false =
      ⟨[], true, false, some ("example.com", 443), [], false⟩ :=
  rfl

/-- C8 (amended): successful establishment writes exactly the
`HTTP/1.1 200 Connection Established` line with no headers or body
before the tunnel begins, in every branch of both CONNECT handlers.  On
establishment failure, the intercept branches write a 502/500-class
status line and close, while the passthrough branches close the client
socket without writing any status line. -/
theorem connect_establishment_amended (url : String) (head : List Nat) :
    (matchesAnyRule interceptDomains (connectHostname url) = true →
        (handleConnect url head true).clientWrites = [connectionEstablishedLine] ∧
        (handleConnect url head true).clientClosed = false ∧
        (handleConnect url head false).clientWrites = ["HTTP/1.1 502 Bad Gateway\r\n\r\n"] ∧
        (handleConnect url head false).clientClosed = true) ∧
      (matchesAnyRule interceptDomains (connectHostname url) = false →
        (handleConnect url head true).clientWrites = [connectionEstablishedLine] ∧
        (handleConnect url head false).clientWrites = [] ∧
        (handleConnect url head false).clientClosed = true) ∧
      (matchesAnyRule mitmInterceptDomains (connectHostname url) = true →
        (mitmHandleConnect url head true true).clientWrites = [connectionEstablishedLine] ∧
        (mitmHandleConnect url head false true).clientWrites =
          ["HTTP/1.1 500 SSL Interception Not Available\r\n\r\n"] ∧
        (mitmHandleConnect url head false true).clientClosed = true) ∧
      (matchesAnyRule mitmInterceptDomains (connectHostname url) = false →
        ∀ ssl, (mitmHandleConnect url head ssl true).clientWrites = [connectionEstablishedLine] ∧
          (mitmHandleConnect url head ssl false).clientWrites = [] ∧
          (mitmHandleConnect url head ssl false).clientClosed = true) := by
  refine ⟨fun hm => ?_, fun hm => ?_, fun hm => ?_, fun hm => ?_⟩
  · exact ⟨by simp [handleConnect, hm], by simp [handleConnect, hm],
      by simp [handleConnect, hm], by simp [handleConnect, hm]⟩
  · exact ⟨by simp [handleConnect, hm], by simp [handleConnect, hm],
      by simp [handleConnect, hm]⟩
  · exact ⟨by simp [mitmHandleConnect, hm], by simp [mitmHandleConnect, hm],
      by simp [mitmHandleConnect, hm]⟩
  · exact fun ssl => ⟨by simp [mitmHandleConnect, hm], by simp [mitmHandleConnect, hm],
      by simp [mitmHandleConnect, hm]⟩

/-- C8 witness: the amended statement instantiated at an intercepted and
a passthrough CONNECT. -/
theorem connect_establishment_amended_witness :
    (handleConnect "nba2k17-ws.2ksports.com:443" [] true).clientWrites =
        [connectionEstablishedLine] ∧
      (handleConnect "example.com:443" [] false).clientWrites = [] :=
  ⟨((connect_establishment_amended "nba2k17-ws.2ksports.com:443" []).1 rfl).1,
    (((connect_establishment_amended "example.com:443" []).2.1 rfl).2.1)⟩

/-- C9: refuted as stated.  The body `"0"` parses as the falsy JSON
number 0, so the first sanitization pass returns 0 and the second pass
hits the falsy-input guard and collapses it to null: sanitization
applied twice differs from sanitization applied once. -/
theorem sanitizeBody_not_idempotent :
    sanitizeBody (JsValue.str "0") = some (JsValue.num 0) ∧
      (sanitizeBody (JsValue.str "0")).bind sanitizeBody = some JsValue.null ∧
      some (JsValue.num 0) ≠ some JsValue.null :=
  ⟨rfl, rfl, fun h => JsValue.noConfusion (Option.some.inj h)⟩

/-- C9 (amended): header sanitization is idempotent, and body
sanitization is idempotent on every body that does not parse as JSON
(provided its 200-character truncation does not parse either, which
covers the truncating second pass); it is not idempotent on JSON bodies
in general, as the counterexample shows. -/
theorem sanitize_idempotent_amended (headers : Headers) (s : String)
    (h1 : jsonParse s = none)
    (h2 : jsonParse (jsSubstring0 s 200 ++ "...") = none) :
    sanitizeHeaders (sanitizeHeaders headers) = sanitizeHeaders headers ∧
      (sanitizeBody (JsValue.str s)).bind sanitizeBody = sanitizeBody (JsValue.str s) := by
  constructor
  · unfold sanitizeHeaders
    rw [List.filter_filter]
    congr 1
    funext p
    exact Bool.and_self _
  · by_cases hs0 : s = ""
    · subst hs0
      rfl
    · have hb : (s != "") = true := by
        simp only [bne_iff_ne, ne_eq]
        exact hs0
      have e1 : sanitizeBody (JsValue.str s) = sanitizeBodyCatch (JsValue.str s) := by
        simp [sanitizeBody, jsTruthy, hb, jsToString, h1]
      by_cases hlen : 200 < s.length
      · have e2 : sanitizeBodyCatch (JsValue.str s) =
            some (JsValue.str (jsSubstring0 s 200 ++ "...")) := by
          simp [sanitizeBodyCatch, jsLength, hlen]
        have hdata : (jsSubstring0 s 200 ++ "...").data =
            s.data.take 200 ++ ['.', '.', '.'] := by
          simp [jsSubstring0, String.data_append]
        have htake_len : (s.data.take 200).length = 200 := by
          rw [List.length_take]
          exact Nat.min_eq_left (Nat.le_of_lt hlen)
        have ht0 : (jsSubstring0 s 200 ++ "...") ≠ "" := by
          intro hcontr
          have := congrArg String.data hcontr
          rw [hdata] at this
          simp at this
        have hbt : ((jsSubstring0 s 200 ++ "...") != "") = true := by
          simp only [bne_iff_ne, ne_eq]
          exact ht0
        have htlen : (jsSubstring0 s 200 ++ "...").length = 203 := by
          show (jsSubstring0 s 200 ++ "...").data.length = 203
          rw [hdata, List.length_append, htake_len]
          rfl
        have e3 : sanitizeBody (JsValue.str (jsSubstring0 s 200 ++ "...")) =
            sanitizeBodyCatch (JsValue.str (jsSubstring0 s 200 ++ "...")) := by
          simp [sanitizeBody, jsTruthy, hbt, jsToString, h2]
        have e4 : sanitizeBodyCatch (JsValue.str (jsSubstring0 s 200 ++ "...")) =
            some (JsValue.str (jsSubstring0 (jsSubstring0 s 200 ++ "...") 200 ++ "...")) := by
          simp [sanitizeBodyCatch, jsLength, htlen]
        have e5 : jsSubstring0 (jsSubstring0 s 200 ++ "...") 200 = jsSubstring0 s 200 := by
          have htk : (jsSubstring0 s 200 ++ "...").data.take 200 = s.data.take 200 := by
            rw [hdata, List.take_left' htake_len]
          show String.mk ((jsSubstring0 s 200 ++ "...").data.take 200) = jsSubstring0 s 200
          rw [htk]
          rfl
        rw [e1, e2]
        show sanitizeBody (JsValue.str (jsSubstring0 s 200 ++ "...")) = _
        rw [e3, e4, e5]
      · have e2 : sanitizeBodyCatch (JsValue.str s) = some (JsValue.str s) := by
          simp [sanitizeBodyCatch, jsLength, hlen]
        rw [e1, e2]
        show sanitizeBody (JsValue.str s) = _
        rw [e1, e2]

/-- C9 witness: a non-JSON header/body pair for the amended statement. -/
theorem sanitize_idempotent_amended_witness :
    sanitizeHeaders (sanitizeHeaders [("authorization", "secret"), ("accept", "a")]) =
        sanitizeHeaders [("authorization", "secret"), ("accept", "a")] ∧
      (sanitizeBody (JsValue.str "hello")).bind sanitizeBody =
        sanitizeBody (JsValue.str "hello") :=
  sanitize_idempotent_amended [("authorization", "secret"), ("accept", "a")] "hello" rfl rfl

/-- C10: refuted as stated.  The body `" null "` parses as JSON (to
null), yet the body written to the client is the original `" null "`,
byte-for-byte, not the re-serialization `"null"`: the `bodyData.vc`
access throws on a null parse and the catch branch keeps the body
as-is. -/
theorem modifyResponse_null_counterexample :
    jsonParse " null " = some JsValue.null ∧
      (modifyResponse true "REQ-1-0" 200 [] " null ").body = " null " ∧
      jsonStringify JsValue.null = "null" ∧ (" null " : String) ≠ "null" :=
  ⟨rfl, rfl, rfl, by decide⟩

/-- C10 (amended): for a buffered INTERCEPT response processed with
modifications enabled, a body parsing as JSON to a non-null value is
written to the client as the re-serialization of the parsed value (not
guaranteed byte-identical), a body that does not parse as JSON — and
likewise one parsing exactly to null — is written byte-for-byte
unchanged, and in every case the response headers written to the client
gain the correlation id. -/
theorem modifyResponse_json_amended (fb : Bool) (requestId ts method : String)
    (target : Endpoint) (path : String) (headers : Headers) (reqBody : String) (st : Nat)
    (hs : Headers) (body : String) (sec : LocalResult) :
    (∀ v, jsonParse body = some v → v ≠ JsValue.null →
        (handleInterceptRequest ⟨fb, true⟩ requestId ts method target path headers reqBody
            (.success st hs body) sec).clientBody = jsonStringify v) ∧
      (jsonParse body = none →
        (handleInterceptRequest ⟨fb, true⟩ requestId ts method target path headers reqBody
            (.success st hs body) sec).clientBody = body) ∧
      (jsonParse body = some JsValue.null →
        (handleInterceptRequest ⟨fb, true⟩ requestId ts method target path headers reqBody
            (.success st hs body) sec).clientBody = body) ∧
      (handleInterceptRequest ⟨fb, true⟩ requestId ts method target path headers reqBody
          (.success st hs body) sec).clientHeaders = setHeader hs "X-Proxy-Response-ID"
        requestId := by
  have hcb : (handleInterceptRequest ⟨fb, true⟩ requestId ts method target path headers reqBody
      (.success st hs body) sec).clientBody = (modifyResponse true requestId st hs body).body :=
    rfl
  have hch : (handleInterceptRequest ⟨fb, true⟩ requestId ts method target path headers reqBody
      (.success st hs body) sec).clientHeaders =
      (modifyResponse true requestId st hs body).headers := rfl
  refine ⟨?_, ?_, ?_, ?_⟩
  · intro v hj hv
    rw [hcb]
    exact modifyResponse_body_parse_some requestId st hs body v hj hv
  · intro hj
    rw [hcb]
    exact modifyResponse_body_parse_none requestId st hs body hj
  · intro hj
    rw [hcb]
    simp [modifyResponse, hj]
  · rw [hch]
    exact modifyResponse_headers_enabled requestId st hs body

/-- C10 witness: a JSON body with interior whitespace is re-serialized
(not byte-identical) and a non-JSON body passes through unchanged. -/
theorem modifyResponse_json_amended_witness :
    (handleInterceptRequest ⟨false, true⟩ "REQ-1-0" "TS" "GET"
        ⟨"api.2ksports.com", 17217, "https"⟩ "/p" [] ""
        (.success 200 [] "\x7b \"vc\" : 500 \x7d") (.connError "e")).clientBody =
        "\x7b\"vc\":500\x7d" ∧
      (handleInterceptRequest ⟨false, true⟩ "REQ-1-0" "TS" "GET"
          ⟨"api.2ksports.com", 17217, "https"⟩ "/p" [] ""
          (.success 200 [] "plain text") (.connError "e")).clientBody = "plain text" := by
  constructor
  · have h := (modifyResponse_json_amended false "REQ-1-0" "TS" "GET"
        ⟨"api.2ksports.com", 17217, "https"⟩ "/p" [] "" 200 [] "\x7b \"vc\" : 500 \x7d"
        (.connError "e")).1 (JsValue.obj [("vc", JsValue.num 500)]) rfl
        (fun hne => JsValue.noConfusion hne)
    exact h.trans rfl
  · exact (modifyResponse_json_amended false "REQ-1-0" "TS" "GET"
        ⟨"api.2ksports.com", 17217, "https"⟩ "/p" [] "" 200 [] "plain text"
        (.connError "e")).2.1 rfl

end Returno
